import Mathlib

/-!
# Shallow embedding of the kv-s3105c / kv-ss905c scanner drivers

This file embeds the wire-level decoding, window serialization, transport
retry logic, read-data sense handling and the scan-session page loop of the
two Panasonic scanner drivers (`kv-s3105c/kvs3105usb.c`, USB-Bulk transport,
and `kv-ss905c/kvss905c.c`, SCSI-Generic transport) as executable Lean
definitions, and proves the specification's claims about them.

Machine integers are modelled as `Nat` with explicit `% 2^w` truncation at
the points where the C code stores into a fixed-width integer.  The hosts
these drivers run on are little-endian (Linux/x86), so `ntohl`/`htons` are
modelled as byte swaps.
-/

namespace KV

/-- 32-bit byte swap: the behaviour of `ntohl`/`htonl` on the little-endian
hosts this driver targets.  The argument is first truncated to 32 bits, as
the C `uint32_t` operand is. -/
def ntohl (x : Nat) : Nat :=
  (x % 256) <<< 24 ||| (x / 2^8 % 256) <<< 16 ||| (x / 2^16 % 256) <<< 8 ||| (x / 2^24 % 256)

/-- Truncation of a value stored into a C `uint8_t`. -/
def u8 (x : Nat) : Nat := x % 256

/-- `htons` of a `uint16_t` field followed by a 2-byte `memcpy`: the two
bytes of `x % 2^16`, most significant first. -/
def u16be (x : Nat) : List Nat := [x / 2^8 % 256, x % 256]

/-- `htonl` of a `uint32_t` field followed by a 4-byte `memcpy`: the four
bytes of `x % 2^32`, most significant first. -/
def u32be (x : Nat) : List Nat :=
  [x / 2^24 % 256, x / 2^16 % 256, x / 2^8 % 256, x % 256]

/-- Big-endian 32-bit load `ntohl(*(uint32_t *) &buf[i])` (unaligned load of
bytes `i..i+3` on a little-endian host, then `ntohl`): the value whose
big-endian bytes are `buf[i..i+3]`. -/
def load32be (buf : List Nat) (i : Nat) : Nat :=
  (buf.getD i 0) * 2^24 + (buf.getD (i+1) 0) * 2^16 +
  (buf.getD (i+2) 0) * 2^8 + buf.getD (i+3) 0

/-- C unsigned 32-bit subtraction `a - b` (wraps modulo `2^32`). -/
def usub32 (a b : Nat) : Nat := (a % 2^32 + 2^32 - b % 2^32) % 2^32

/-! ## GET DATA BUFFER STATUS decoding (claim C2)

`get_data_buffer_status` in `kv-s3105c/kvs3105usb.c` (lines 442-461) and in
`kv-ss905c/kvss905c.c` (lines 299-314) both read a 12-byte response
`buffer` and decode a window id and an available length. -/

/-- Window id decoded by `get_data_buffer_status` (`kvs3105usb.c`):
`*window_id = buffer[4]`. -/
def s3105_gdbs_window_id (buffer : List Nat) : Nat := buffer.getD 4 0

/-- Length decoded by `get_data_buffer_status` (`kvs3105usb.c`):
`length_be = buffer[9]<<16 | buffer[10]<<8 | buffer[11]; *length = length_be`. -/
def s3105_gdbs_length (buffer : List Nat) : Nat :=
  (buffer.getD 9 0) <<< 16 ||| (buffer.getD 10 0) <<< 8 ||| buffer.getD 11 0

/-- Window id decoded by `get_data_buffer_status` (`kvss905c.c`):
`*window_id = buffer[4]`. -/
def ss905c_gdbs_window_id (buffer : List Nat) : Nat := buffer.getD 4 0

/-- Length decoded by `get_data_buffer_status` (`kvss905c.c`):
`length_be = buffer[9]<<16 | buffer[10]<<8 | buffer[11]; *length = ntohl(length_be)`.
Unlike the `kvs3105usb.c` sibling, this version passes the already
host-order value through `ntohl`, which byte-swaps it on the
little-endian hosts the driver runs on. -/
def ss905c_gdbs_length (buffer : List Nat) : Nat :=
  ntohl ((buffer.getD 9 0) <<< 16 ||| (buffer.getD 10 0) <<< 8 ||| buffer.getD 11 0)

/-! ## Window serialization (claims C3 and C9)

`struct kvs3105_window` (`kvs3105usb.h`) and `struct kvss905c_window`
(`kvss905c.h`) declare the same field list; fields are C `uint8_t`,
`uint16_t` or `uint32_t`, modelled as `Nat` with truncation applied where
the serializer stores them. -/

/-- The scan-window configuration record (`struct kvs3105_window` /
`struct kvss905c_window`; the two headers declare identical field lists).
The C integer width of each field is noted in the serializer, which
truncates accordingly. -/
structure Window where
  xres : Nat := 0
  yres : Nat := 0
  x1 : Nat := 0
  y1 : Nat := 0
  width : Nat := 0
  length : Nat := 0
  brighness : Nat := 0
  threshold : Nat := 0
  contrast : Nat := 0
  composition : Nat := 0
  bpp : Nat := 0
  halftone_pattern : Nat := 0
  reverse_image : Nat := 0
  bit_ordering : Nat := 0
  compression_type : Nat := 0
  compression_argument : Nat := 0
  flatbed : Nat := 0
  stop_on_skew : Nat := 0
  disable_buffering : Nat := 0
  continue_on_double_feed : Nat := 0
  mirror_image : Nat := 0
  emphasis : Nat := 0
  gamma_correction : Nat := 0
  multi_colour_drop_out : Nat := 0
  lamp : Nat := 0
  double_feed_sensitivity : Nat := 0
  remove_moire : Nat := 0
  subsample : Nat := 0
  colour_match : Nat := 0
  document_size : Nat := 0
  document_width : Nat := 0
  document_length : Nat := 0
  ahead_disable : Nat := 0
  deskew : Nat := 0
  double_feed_detector : Nat := 0
  full_size_scan : Nat := 0
  feed_slow : Nat := 0
  remove_shadow : Nat := 0
  number_of_pages_to_scan : Nat := 0
  threshold_mode : Nat := 0
  separation_mode : Nat := 0
  standard_white_level : Nat := 0
  blackwhite_noise_reduction : Nat := 0
  noise_reduction : Nat := 0
  manual_feed_mode : Nat := 0
  additional_space_top : Nat := 0
  additional_space_bottom : Nat := 0
  detect_separation_sheet : Nat := 0
  halt_at_separation_sheet : Nat := 0
  detect_control_sheet : Nat := 0
  stop_mode : Nat := 0
  red_chroma : Nat := 0
  blue_chroma : Nat := 0
deriving DecidableEq, Repr

/-- `kvs3105_window_serialise` (`kvs3105usb.c` lines 317-388): the bytes
written at offsets `0..j-1`, in order.  The `j += 6` gap (offsets 34-39)
leaves the caller's buffer untouched; the only caller,
`kvs3105_set_windows`, `memset`s the buffer to zero first, so those six
bytes are zero in the record sent to the device.  The C function's return
value `j` is the length of this list. -/
def kvs3105_window_serialise (w : Window) : List Nat :=
  [0, 0] ++                                   -- U8I(0); U8I(0)
  u16be w.xres ++ u16be w.yres ++
  u32be w.x1 ++ u32be w.y1 ++ u32be w.width ++ u32be w.length ++
  [u8 w.brighness, u8 w.threshold, u8 w.contrast, u8 w.composition, u8 w.bpp] ++
  u16be w.halftone_pattern ++
  [if w.reverse_image ≠ 0 then 0x80 else 0] ++
  u16be w.bit_ordering ++
  [u8 w.compression_type, u8 w.compression_argument] ++
  [0, 0, 0, 0, 0, 0] ++                       -- j += 6 over the zeroed buffer
  [0] ++                                      -- U8I(0)
  [u8 (w.flatbed <<< 7 ||| w.stop_on_skew <<< 4 |||
       w.disable_buffering <<< 3 ||| w.continue_on_double_feed <<< 0)] ++
  [u8 w.mirror_image, u8 w.emphasis, u8 w.gamma_correction] ++
  [u8 (w.multi_colour_drop_out <<< 7 ||| w.lamp <<< 4 |||
       w.double_feed_sensitivity <<< 0)] ++
  [u8 (w.remove_moire <<< 6 ||| w.subsample <<< 4 ||| w.colour_match <<< 0)] ++
  [u8 w.document_size] ++
  u32be w.document_width ++ u32be w.document_length ++
  [u8 (w.ahead_disable <<< 7 ||| w.deskew <<< 5 ||| w.double_feed_detector <<< 4 |||
       w.full_size_scan <<< 2 ||| w.feed_slow <<< 1 ||| w.remove_shadow <<< 0)] ++
  [u8 w.number_of_pages_to_scan, u8 w.threshold_mode, u8 w.separation_mode,
   u8 w.standard_white_level] ++
  [u8 (w.blackwhite_noise_reduction <<< 7 ||| w.noise_reduction <<< 0)] ++
  [u8 (w.manual_feed_mode <<< 6 ||| w.additional_space_top <<< 5 |||
       w.additional_space_bottom <<< 4 ||| w.detect_separation_sheet <<< 3 |||
       w.halt_at_separation_sheet <<< 2 ||| w.detect_control_sheet <<< 1)] ++
  [u8 w.stop_mode]

/-- `kvss905c_window_serialise` (`kvss905c.c` lines 180-253): identical
byte sequence to the `kvs3105usb.c` serializer (the two sources are
near-duplicates); the `j += 6` gap is likewise zero because
`kvss905c_set_windows` `memset`s the buffer first. -/
def kvss905c_window_serialise (w : Window) : List Nat :=
  [0, 0] ++
  u16be w.xres ++ u16be w.yres ++
  u32be w.x1 ++ u32be w.y1 ++ u32be w.width ++ u32be w.length ++
  [u8 w.brighness, u8 w.threshold, u8 w.contrast, u8 w.composition, u8 w.bpp] ++
  u16be w.halftone_pattern ++
  [if w.reverse_image ≠ 0 then 0x80 else 0] ++
  u16be w.bit_ordering ++
  [u8 w.compression_type, u8 w.compression_argument] ++
  [0, 0, 0, 0, 0, 0] ++
  [0] ++
  [u8 (w.flatbed <<< 7 ||| w.stop_on_skew <<< 4 |||
       w.disable_buffering <<< 3 ||| w.continue_on_double_feed <<< 0)] ++
  [u8 w.mirror_image, u8 w.emphasis, u8 w.gamma_correction] ++
  [u8 (w.multi_colour_drop_out <<< 7 ||| w.lamp <<< 4 |||
       w.double_feed_sensitivity <<< 0)] ++
  [u8 (w.remove_moire <<< 6 ||| w.subsample <<< 4 ||| w.colour_match <<< 0)] ++
  [u8 w.document_size] ++
  u32be w.document_width ++ u32be w.document_length ++
  [u8 (w.ahead_disable <<< 7 ||| w.deskew <<< 5 ||| w.double_feed_detector <<< 4 |||
       w.full_size_scan <<< 2 ||| w.feed_slow <<< 1 ||| w.remove_shadow <<< 0)] ++
  [u8 w.number_of_pages_to_scan, u8 w.threshold_mode, u8 w.separation_mode,
   u8 w.standard_white_level] ++
  [u8 (w.blackwhite_noise_reduction <<< 7 ||| w.noise_reduction <<< 0)] ++
  [u8 (w.manual_feed_mode <<< 6 ||| w.additional_space_top <<< 5 |||
       w.additional_space_bottom <<< 4 ||| w.detect_separation_sheet <<< 3 |||
       w.halt_at_separation_sheet <<< 2 ||| w.detect_control_sheet <<< 1)] ++
  [u8 w.stop_mode]

/-- `WINDOW_SIZE` (`kvs3105usb.c` line 390 / `kvss905c.c` line 255). -/
def WINDOW_SIZE : Nat := 64

/-- The abort guard of `kvs3105_set_windows` (`kvs3105usb.c` lines 408-410):
`if (bytes_written != WINDOW_SIZE) abort();` where `bytes_written` is the
serializer's returned `j`, the number of bytes it wrote. -/
def kvs3105_set_windows_aborts (w : Window) : Bool :=
  (kvs3105_window_serialise w).length ≠ WINDOW_SIZE

/-- The abort guard of `kvss905c_set_windows` (`kvss905c.c` lines 266-267). -/
def kvss905c_set_windows_aborts (w : Window) : Bool :=
  (kvss905c_window_serialise w).length ≠ WINDOW_SIZE

/-! ## Image read: `kvs3105_read_data` / `kvss905c_read_data` (claims C1, C4, C10)

Both functions issue a READ(image) of `length = UNSAFE_MIN(kMaxBuffer, blen)`
bytes and interpret the sense buffer on failure.  The underlying read is
modelled by its outcome: either it succeeded, or it failed leaving a
20-byte sense buffer in `requestsense`. -/

/-- `kMaxBuffer = 0x10000` (both sources). -/
def kMaxBuffer : Nat := 0x10000

/-- Outcome of the underlying READ(image) transport call. -/
inductive ReadOutcome where
  | ok
  | failed (sense : List Nat)
deriving DecidableEq, Repr

/-- `kvs3105_read_data` (`kvs3105usb.c` lines 534-557) as a function of the
requested length `blen` and the transport outcome.  `some (result,
end_of_page)` models the `return 0` paths (with the two output parameters);
`none` models `return 1` ("Unexpected read error"). -/
def kvs3105_read_data (blen : Nat) (out : ReadOutcome) : Option (Nat × Nat) :=
  let length := min kMaxBuffer blen
  match out with
  | .ok => some (length, 0)
  | .failed rs =>
    let current_error : Bool := rs.getD 0 0 == 0xf0
    let end_of_medium := rs.getD 2 0 >>> 6 &&& 1
    let incorrect_length_indicator := rs.getD 2 0 >>> 5 &&& 1
    if current_error && (incorrect_length_indicator == 1) then
      let delta := load32be rs 3
      some (usub32 length delta, end_of_medium)
    else
      none

/-- `kvss905c_read_data` (`kvss905c.c` lines 376-394): the short-read path
requires `requestsense[2] == 0x60` exactly and always sets `*eof = 1`. -/
def kvss905c_read_data (blen : Nat) (out : ReadOutcome) : Option (Nat × Nat) :=
  let length := min kMaxBuffer blen
  match out with
  | .ok => some (length, 0)
  | .failed rs =>
    if rs.getD 0 0 == 0xf0 && rs.getD 2 0 == 0x60 then
      let delta := load32be rs 3
      some (usub32 length delta, 1)
    else
      none

/-! ## Device model and page draining (claim C1) -/

/-- Modelled from the spec: the 20-byte sense buffer the device leaves after
the READ that reaches the end of the page — "a short chunk is signaled by
end-of-medium + incorrect-length sense whose residual field gives the exact
final length" and "Sense buffer (20 bytes): byte 0 = 0xf0 for
current-error; byte 2 ... bits 5/6 = incorrect-length/end-of-medium; bytes
3-6 = 32-bit residual length". -/
def senseShortRead (residual : Nat) : List Nat :=
  [0xf0, 0, 0x60] ++ u32be residual ++ List.replicate 13 0

/-- Modelled from the spec: the scanner's response to a READ(image) of
`requested` bytes when `remaining` bytes of the page are left — "a full
chunk means more data remains" (so a successful full transfer happens
exactly when data remains beyond this chunk), otherwise the end of the page
is signalled with the residual-length sense. -/
def deviceRead (remaining requested : Nat) : ReadOutcome :=
  if requested < remaining then .ok
  else .failed (senseShortRead (requested - remaining))

/-- The drain loop of `kv-s3105c/kvscanner.c` (lines 252-263): repeatedly
call `kvs3105_read_data` with a 64 KiB buffer (`KVS3105_BUFFER_SIZE`),
collecting each read's returned byte count, and stop at the first read that
reports end-of-page.  The device is the spec model above, holding
`remaining` bytes.  `none` models a read error (loop aborts) or fuel
exhaustion. -/
def drain3105 (fuel remaining : Nat) : Option (List Nat) :=
  match fuel with
  | 0 => none
  | fuel + 1 =>
    match kvs3105_read_data kMaxBuffer (deviceRead remaining kMaxBuffer) with
    | none => none
    | some (result, end_of_page) =>
      if end_of_page ≠ 0 then some [result]
      else (drain3105 fuel (remaining - kMaxBuffer)).map (result :: ·)

/-- The drain loop of `kv-ss905c/kvscanner.c` (lines 154-165), identical in
structure, through `kvss905c_read_data`. -/
def drain905c (fuel remaining : Nat) : Option (List Nat) :=
  match fuel with
  | 0 => none
  | fuel + 1 =>
    match kvss905c_read_data kMaxBuffer (deviceRead remaining kMaxBuffer) with
    | none => none
    | some (result, eof) =>
      if eof ≠ 0 then some [result]
      else (drain905c fuel (remaining - kMaxBuffer)).map (result :: ·)

/-! ## USB-Bulk transport: `send_command` (claim C5) -/

/-- `CHECK_CONDITION` (`kvs3105usb.c` line 100). -/
def CHECK_CONDITION : Nat := 2

/-- `RESPONSE_SIZE` = `0x12` (`kvs3105usb.c` line 108): the number of sense
bytes requested, memset and memcpy'd — 18, not the full 20 of the caller's
`KVS3105_REQUEST_SENSE_SIZE` buffer. -/
def RESPONSE_SIZE : Nat := 0x12

/-- The follow-up CDB built in `send_command` (`kvs3105usb.c` line 267):
`uint8_t cmd[6] = {REQUEST_SENSE, 0, 0, 0, RESPONSE_SIZE};` (the sixth
initializer defaults to zero). -/
def REQUEST_SENSE_CDB : List Nat := [0x03, 0, 0, 0, 0x12, 0]

/-- Outcome of one `usb_send_command` exchange, abstracting the device:
  * `sendFail`: the command-frame bulk-OUT failed (`return -3`);
  * `dataFail`: the data phase failed (`return -2`; for IN commands
    `c->data_size` is zeroed and `r->status` set to `CHECK_CONDITION`);
  * `statusFail data`: the data phase succeeded (leaving `data` in the
    response region for IN commands) but the final status bulk-IN failed
    (`return -1`, `r->status` set to `CHECK_CONDITION`);
  * `ok status data`: everything transferred; `status` is the decoded
    4-byte SCSI status word (`return 0`). -/
inductive UsbXfer where
  | sendFail
  | dataFail
  | statusFail (data : List Nat)
  | ok (status : Nat) (data : List Nat)
deriving DecidableEq, Repr

/-- Result of `send_command`: the C return value, the caller's 20-byte
`requestsense` buffer after the call, and the CDBs issued on the bulk
channel in order. -/
structure SendResult where
  ret : Nat
  requestsense : List Nat
  cdbs : List (List Nat)
deriving DecidableEq, Repr

/-- The sense-fetching tail of `send_command` (`kvs3105usb.c` lines
258-289): issue a REQUEST SENSE via `usb_send_command`; on `st < -1` or a
zeroed `data_size` return 1, otherwise copy `RESPONSE_SIZE` bytes of the
fetched data into `requestsense` and return 2 (whatever the follow-up's own
status word was — it is only logged). -/
def fetchSense (rs0 : List Nat) (command : List Nat) (senseXfer : UsbXfer) :
    SendResult :=
  match senseXfer with
  | .sendFail => ⟨1, rs0, [command, REQUEST_SENSE_CDB]⟩
  | .dataFail => ⟨1, rs0, [command, REQUEST_SENSE_CDB]⟩
  | .statusFail d =>
    ⟨2, d.take RESPONSE_SIZE ++ rs0.drop RESPONSE_SIZE, [command, REQUEST_SENSE_CDB]⟩
  | .ok _ d =>
    ⟨2, d.take RESPONSE_SIZE ++ rs0.drop RESPONSE_SIZE, [command, REQUEST_SENSE_CDB]⟩

/-- `send_command` (`kvs3105usb.c` lines 222-291) as a function of the
caller's initial 20-byte `requestsense` buffer, the CDB, and the outcomes
of the (at most two) USB exchanges.  It first `memset`s the leading
`RESPONSE_SIZE` bytes of `requestsense` to zero; `usb_send_command`
returning -2 maps to `return 3`, -3 to `return 1`; a completed exchange
with non-good status (or a lost status packet, which forces
`CHECK_CONDITION`) triggers the REQUEST SENSE follow-up. -/
def send_command (initSense : List Nat) (command : List Nat)
    (main senseXfer : UsbXfer) : SendResult :=
  let rs0 := List.replicate RESPONSE_SIZE 0 ++ initSense.drop RESPONSE_SIZE
  match main with
  | .sendFail => ⟨1, rs0, [command]⟩
  | .dataFail => ⟨3, rs0, [command]⟩
  | .statusFail _ => fetchSense rs0 command senseXfer
  | .ok status _ =>
    if status ≠ 0 then fetchSense rs0 command senseXfer
    else ⟨0, rs0, [command]⟩

/-! ## SCSI-Generic transport: `scsi_command` retry loop (claim C6) -/

/-- `scsi_transient_error` (`kvss905c.c` lines 77-86): ASC byte 12 of the
sense buffer is 0x28 or 0x29 (unit-attention class) or 0x04 (not ready). -/
def scsi_transient_error (requestsense : List Nat) : Bool :=
  let asc := requestsense.getD 12 0
  asc == 0x28 || asc == 0x29 || asc == 0x04

/-- Outcome of one `SG_IO` ioctl attempt:
  * `ioctlFail`: the ioctl itself failed (`return 1`);
  * `check sense`: `hdr.masked_status` non-zero, sense buffer filled inline;
  * `good`: `hdr.masked_status == 0` (`return 0`). -/
inductive SgOutcome where
  | ioctlFail
  | check (sense : List Nat)
  | good
deriving DecidableEq, Repr

/-- Result of `scsi_command`: C return value, number of ioctl attempts
issued, and total seconds slept (`sleep(3)` after each transient failure). -/
structure ScsiResult where
  ret : Nat
  attempts : Nat
  sleptSeconds : Nat
deriving DecidableEq, Repr

/-- The retry loop body of `scsi_command` (`kvss905c.c` lines 119-153):
`retriesLeft` counts the remaining iterations of
`for (retries = 0; retries < 5; ++retries)`, `i` the attempts already
issued, `slept` the seconds slept so far.  Attempt `i`'s outcome is
`attempt i`. -/
def scsi_command_go (attempt : Nat → SgOutcome) :
    Nat → Nat → Nat → ScsiResult
  | 0, i, slept => ⟨2, i, slept⟩
  | retriesLeft + 1, i, slept =>
    match attempt i with
    | .ioctlFail => ⟨1, i + 1, slept⟩
    | .good => ⟨0, i + 1, slept⟩
    | .check sense =>
      if scsi_transient_error sense then
        scsi_command_go attempt retriesLeft (i + 1) (slept + 3)
      else ⟨2, i + 1, slept⟩

/-- `scsi_command` (`kvss905c.c` lines 114-154) as a function of the stream
of per-attempt ioctl outcomes. -/
def scsi_command (attempt : Nat → SgOutcome) : ScsiResult :=
  scsi_command_go attempt 5 0 0

/-! ## Scan-session page/side loop (claim C7) -/

/-- One execution of the inner block loop of both `kvscanner.c` mains
(`kv-s3105c/kvscanner.c` lines 206-278, `kv-ss905c/kvscanner.c` lines
124-181): starting from device page `page` and side `side`, while
`page < block_size` the iteration issues its per-side retrievals with the
current `(page, side)` and then advances — duplex alternates front (0) and
back (1) before incrementing the page, non-duplex increments every
iteration.  `fuel` bounds the number of iterations; the emitted list is
the sequence of `(page, side)` arguments. -/
def scan_block_go (duplex : Bool) (block_size : Nat) :
    Nat → Nat → Nat → List (Nat × Nat)
  | _, _, 0 => []
  | page, side, fuel + 1 =>
    if page < block_size then
      (page, side) ::
        (if duplex then
          (if side ≠ 0 then scan_block_go duplex block_size (page + 1) 0 fuel
           else scan_block_go duplex block_size page 1 fuel)
         else scan_block_go duplex block_size (page + 1) side fuel)
    else []

/-- The block loop entered with `page = 0`, `side = 0`, with enough fuel
for all its iterations. -/
def scan_block_loop (duplex : Bool) (block_size : Nat) : List (Nat × Nat) :=
  scan_block_go duplex block_size 0 0 (2 * block_size + 1)

/-! ## Buffer-wait poll (claim C8) -/

/-- Outcome of one `get_data_buffer_status` call as seen by the wait loop:
either a non-zero return code, or success with the decoded length. -/
inductive GdbsOutcome where
  | err (code : Nat)
  | ok (length : Nat)
deriving DecidableEq, Repr

/-- The poll loop of `kvs3105_data_buffer_wait` (`kvs3105usb.c` lines
518-532) / `kvss905c_data_buffer_wait` (`kvss905c.c` lines 360-374): an
unconditional `for (;;)` that returns the status call's code on error,
returns 0 once the reported length is non-zero, and otherwise sleeps and
polls again.  The functions take only the device handle and the sense
buffer — there is no cancellation input.  `poll i` is the outcome of the
`i`-th status call; `fuel` bounds the number of polls we observe, and
`none` means the loop was still running after `fuel` polls. -/
def data_buffer_wait_go (poll : Nat → GdbsOutcome) : Nat → Nat → Option Nat
  | _, 0 => none
  | i, fuel + 1 =>
    match poll i with
    | .err code => some code
    | .ok length =>
      if length ≠ 0 then some 0
      else data_buffer_wait_go poll (i + 1) fuel

/-! ## Concrete inputs used by witnesses and counterexamples -/

/-- A 12-byte GET DATA BUFFER STATUS response with window id 7 and
available-length tribyte `0x01 0x02 0x03` (bytes 9-11). -/
def gdbsFailing : List Nat := [0, 0, 0, 0, 7, 0, 0, 0, 0, 1, 2, 3]

/-- A 20-byte sense buffer: current error (0xf0), end-of-medium and
incorrect-length set (byte 2 = 0x60), residual 0x32 in bytes 3-6. -/
def senseC4 : List Nat := [0xf0, 0, 0x60, 0, 0, 0, 0x32] ++ List.replicate 13 0

/-- A sense buffer with ASC byte 12 = 0x04 (not ready): transient. -/
def transientSense : List Nat := List.replicate 12 0 ++ [0x04]

/-- A sense buffer with ASC byte 12 = 0x3a (out of paper): not transient. -/
def nonTransientSense : List Nat := List.replicate 12 0 ++ [0x3a]

/-- An ioctl-outcome stream: transient check-conditions on attempts 0-3,
good on attempt 4. -/
def attemptsTransThenGood : Nat → SgOutcome :=
  fun i => if i < 4 then .check transientSense else .good

/-- An ioctl-outcome stream: every attempt a transient check-condition. -/
def attemptsAllTransient : Nat → SgOutcome := fun _ => .check transientSense

/-- An ioctl-outcome stream: a non-transient check-condition at once. -/
def attemptsNonTransient : Nat → SgOutcome := fun _ => .check nonTransientSense

/-- A 20-byte caller sense buffer with recognisable stale contents. -/
def initC5 : List Nat := List.replicate 20 9

/-- A READ CDB used to exercise `send_command`. -/
def cmdC5 : List Nat := [0x28, 0, 0, 0, 0, 0, 1, 0, 0, 0]

/-- 18 distinct bytes standing for freshly fetched sense data. -/
def senseBytesC5 : List Nat := List.range RESPONSE_SIZE

/-- A sense buffer with current-error and incorrect-length set but
end-of-medium clear (byte 2 = 0x20), residual 5. -/
def senseIliOnly : List Nat := [0xf0, 0, 0x20, 0, 0, 0, 5] ++ List.replicate 13 0

/-! # Theorems -/

/-- C2: for every 12-byte GET DATA BUFFER STATUS response both decoders are
claimed to yield the window id from byte 4 and the length as the big-endian
tribyte `buffer[9]<<16 | buffer[10]<<8 | buffer[11]` with no further
transformation.  The `kvs3105usb.c` decoder does; the `kvss905c.c` decoder
passes the assembled tribyte through `ntohl`, so on the little-endian hosts
the driver targets it returns the byte-swapped value instead: on a response
whose tribyte is `0x010203`, it yields `0x03020100`. -/
theorem C2_gdbs_decode_divergence :
    s3105_gdbs_window_id gdbsFailing = 7 ∧
    s3105_gdbs_length gdbsFailing = 0x010203 ∧
    ss905c_gdbs_window_id gdbsFailing = 7 ∧
    ss905c_gdbs_length gdbsFailing = 0x03020100 ∧
    ss905c_gdbs_length gdbsFailing ≠ 0x010203 := by
  decide

/-- C3: for every window configuration both serializers write exactly
`WINDOW_SIZE = 64` bytes, so the `abort()` guard in `kvs3105_set_windows` /
`kvss905c_set_windows` (`bytes_written != WINDOW_SIZE`) can never fire. -/
theorem C3_window_serialise_always_64 (w : Window) :
    (kvs3105_window_serialise w).length = WINDOW_SIZE ∧
    (kvss905c_window_serialise w).length = WINDOW_SIZE ∧
    kvs3105_set_windows_aborts w = false ∧
    kvss905c_set_windows_aborts w = false := by
  refine ⟨?_, ?_, ?_, ?_⟩ <;>
    simp [kvs3105_window_serialise, kvss905c_window_serialise,
          kvs3105_set_windows_aborts, kvss905c_set_windows_aborts,
          u16be, u32be, u8, WINDOW_SIZE]

/-- C4: a read of 0x10000 bytes that fails with sense byte 0 = 0xf0, byte 2
= 0x60 (end-of-medium and incorrect-length) and 32-bit residual 0x32 in
bytes 3-6 returns success from both `kvs3105_read_data` and
`kvss905c_read_data`, with `result = 0x10000 - 0x32` bytes transferred and
end-of-page set. -/
theorem C4_end_of_medium_short_read (rs : List Nat)
    (h0 : rs.getD 0 0 = 0xf0) (h2 : rs.getD 2 0 = 0x60)
    (hres : load32be rs 3 = 0x32) :
    kvs3105_read_data 0x10000 (.failed rs) = some (0x10000 - 0x32, 1) ∧
    kvss905c_read_data 0x10000 (.failed rs) = some (0x10000 - 0x32, 1) := by
  unfold kvs3105_read_data kvss905c_read_data
  simp only [h0, h2, hres]
  norm_num [usub32, kMaxBuffer]
  decide

/-- Witness for C4 at the concrete sense buffer `senseC4`. -/
theorem C4_witness :
    (senseC4.getD 0 0 = 0xf0 ∧ senseC4.getD 2 0 = 0x60 ∧
     load32be senseC4 3 = 0x32) ∧
    kvs3105_read_data 0x10000 (.failed senseC4) = some (0x10000 - 0x32, 1) ∧
    kvss905c_read_data 0x10000 (.failed senseC4) = some (0x10000 - 0x32, 1) :=
  ⟨⟨by decide, by decide, by decide⟩,
   C4_end_of_medium_short_read senseC4 (by decide) (by decide) (by decide)⟩

/-- C9: in both serializers' 64-byte output, the byte at offset 41 packs
`flatbed<<7 | stop_on_skew<<4 | disable_buffering<<3 |
continue_on_double_feed`, the byte at offset 56 packs `ahead_disable<<7 |
deskew<<5 | double_feed_detector<<4 | full_size_scan<<2 | feed_slow<<1 |
remove_shadow`, and the 6-byte reserved gap at offsets 34-39 is zero in the
bytes sent to the device.  The flag fields are the 0/1 booleans (deskew the
0-3 enum) of the documented layout, so the packed value fits in the byte. -/
theorem C9_flag_bytes_and_reserved_gap (w : Window)
    (hfb : w.flatbed ≤ 1) (hsk : w.stop_on_skew ≤ 1)
    (hdb : w.disable_buffering ≤ 1) (hcd : w.continue_on_double_feed ≤ 1)
    (had : w.ahead_disable ≤ 1) (hds : w.deskew ≤ 3)
    (hdfd : w.double_feed_detector ≤ 1) (hfs : w.full_size_scan ≤ 1)
    (hsl : w.feed_slow ≤ 1) (hrs : w.remove_shadow ≤ 1) :
    ((kvs3105_window_serialise w).getD 41 0 =
        w.flatbed <<< 7 ||| w.stop_on_skew <<< 4 |||
        w.disable_buffering <<< 3 ||| w.continue_on_double_feed ∧
      (kvss905c_window_serialise w).getD 41 0 =
        w.flatbed <<< 7 ||| w.stop_on_skew <<< 4 |||
        w.disable_buffering <<< 3 ||| w.continue_on_double_feed) ∧
    ((kvs3105_window_serialise w).getD 56 0 =
        w.ahead_disable <<< 7 ||| w.deskew <<< 5 ||| w.double_feed_detector <<< 4 |||
        w.full_size_scan <<< 2 ||| w.feed_slow <<< 1 ||| w.remove_shadow ∧
      (kvss905c_window_serialise w).getD 56 0 =
        w.ahead_disable <<< 7 ||| w.deskew <<< 5 ||| w.double_feed_detector <<< 4 |||
        w.full_size_scan <<< 2 ||| w.feed_slow <<< 1 ||| w.remove_shadow) ∧
    (∀ i, 34 ≤ i → i ≤ 39 →
      (kvs3105_window_serialise w).getD i 0 = 0 ∧
      (kvss905c_window_serialise w).getD i 0 = 0) := by
  have h256 : (256 : Nat) = 2 ^ 8 := rfl
  have h41 : w.flatbed <<< 7 ||| w.stop_on_skew <<< 4 |||
      w.disable_buffering <<< 3 ||| w.continue_on_double_feed < 256 := by
    rw [h256]
    refine Nat.or_lt_two_pow (Nat.or_lt_two_pow (Nat.or_lt_two_pow ?_ ?_) ?_) ?_ <;>
      (try simp only [Nat.shiftLeft_eq]) <;> omega
  have h56 : w.ahead_disable <<< 7 ||| w.deskew <<< 5 ||| w.double_feed_detector <<< 4 |||
      w.full_size_scan <<< 2 ||| w.feed_slow <<< 1 ||| w.remove_shadow < 256 := by
    rw [h256]
    refine Nat.or_lt_two_pow (Nat.or_lt_two_pow (Nat.or_lt_two_pow
      (Nat.or_lt_two_pow (Nat.or_lt_two_pow ?_ ?_) ?_) ?_) ?_) ?_ <;>
      (try simp only [Nat.shiftLeft_eq]) <;> omega
  refine ⟨⟨?_, ?_⟩, ⟨?_, ?_⟩, ?_⟩
  · simp [kvs3105_window_serialise, u16be, u32be, u8]
    exact h41
  · simp [kvss905c_window_serialise, u16be, u32be, u8]
    exact h41
  · simp [kvs3105_window_serialise, u16be, u32be, u8]
    exact h56
  · simp [kvss905c_window_serialise, u16be, u32be, u8]
    exact h56
  · intro i hi1 hi2
    interval_cases i <;>
      exact ⟨by simp [kvs3105_window_serialise, u16be, u32be, u8],
             by simp [kvss905c_window_serialise, u16be, u32be, u8]⟩

/-- Witness for C9: a window with every packed flag set (deskew = 2). -/
theorem C9_witness :
    (kvs3105_window_serialise
        { flatbed := 1, stop_on_skew := 1, disable_buffering := 1,
          continue_on_double_feed := 1, ahead_disable := 1, deskew := 2,
          double_feed_detector := 1, full_size_scan := 1, feed_slow := 1,
          remove_shadow := 1 : Window }).getD 41 0 = 0x99 ∧
    (kvss905c_window_serialise
        { flatbed := 1, stop_on_skew := 1, disable_buffering := 1,
          continue_on_double_feed := 1, ahead_disable := 1, deskew := 2,
          double_feed_detector := 1, full_size_scan := 1, feed_slow := 1,
          remove_shadow := 1 : Window }).getD 56 0 = 0xd7 := by
  have h := C9_flag_bytes_and_reserved_gap
    { flatbed := 1, stop_on_skew := 1, disable_buffering := 1,
      continue_on_double_feed := 1, ahead_disable := 1, deskew := 2,
      double_feed_detector := 1, full_size_scan := 1, feed_slow := 1,
      remove_shadow := 1 : Window }
    (by decide) (by decide) (by decide) (by decide) (by decide) (by decide)
    (by decide) (by decide) (by decide) (by decide)
  exact ⟨h.1.1.trans (by decide), h.2.1.2.trans (by decide)⟩

/-- Unrolling of the duplex block loop from any page, counted by the number
`n` of pages still to visit. -/
theorem scan_block_go_duplex (n : Nat) :
    ∀ K page fuel, page + n = K → 2 * n ≤ fuel →
      scan_block_go true K page 0 fuel =
        (List.range' page n).flatMap (fun p => [(p, 0), (p, 1)]) := by
  induction n with
  | zero =>
    intro K page fuel hK _
    cases fuel with
    | zero => simp [scan_block_go]
    | succ f => simp [scan_block_go, show ¬ page < K by omega]
  | succ n ih =>
    intro K page fuel hK hfuel
    obtain ⟨f, rfl⟩ : ∃ f, fuel = f + 2 := ⟨fuel - 2, by omega⟩
    have hlt : page < K := by omega
    rw [List.range'_succ, List.flatMap_cons]
    simp only [scan_block_go, if_pos hlt]
    simp [ih K (page + 1) f (by omega) (by omega)]

/-- Unrolling of the non-duplex block loop. -/
theorem scan_block_go_simplex (n : Nat) :
    ∀ K page fuel, page + n = K → n ≤ fuel →
      scan_block_go false K page 0 fuel =
        (List.range' page n).map (fun p => (p, 0)) := by
  induction n with
  | zero =>
    intro K page fuel hK _
    cases fuel with
    | zero => simp [scan_block_go]
    | succ f => simp [scan_block_go, show ¬ page < K by omega]
  | succ n ih =>
    intro K page fuel hK hfuel
    obtain ⟨f, rfl⟩ : ∃ f, fuel = f + 1 := ⟨fuel - 1, by omega⟩
    have hlt : page < K := by omega
    rw [List.range'_succ]
    simp only [scan_block_go, if_pos hlt, List.map_cons]
    rw [ih K (page + 1) f (by omega) (by omega)]
    simp

/-- C7: a block of `K` pages is visited in exactly the order
`(0,front),(0,back),(1,front),(1,back),…,(K-1,back)` when duplex
(front = 0, back = 1), with no reordering and no gap; in non-duplex mode
the page index advances after every page, visiting
`(0,front),(1,front),…,(K-1,front)`. -/
theorem C7_duplex_ordering (K : Nat) :
    scan_block_loop true K =
      (List.range K).flatMap (fun p => [(p, 0), (p, 1)]) ∧
    scan_block_loop false K = (List.range K).map (fun p => (p, 0)) := by
  constructor
  · rw [scan_block_loop, List.range_eq_range',
      scan_block_go_duplex K K 0 (2 * K + 1) (by omega) (by omega)]
  · rw [scan_block_loop, List.range_eq_range',
      scan_block_go_simplex K K 0 (2 * K + 1) (by omega) (by omega)]

set_option maxRecDepth 4000 in
/-- C8 counterexample: the wait loop's only inputs are the device handle
and the sense buffer — there is no cancellation signal to raise — and
against a device that keeps reporting a zero buffer length it is still
spinning after any number of polls (here 200), so nothing can make it
"return to the caller". -/
theorem C8_counterexample :
    data_buffer_wait_go (fun _ => .ok 0) 0 200 = none := by
  decide

/-- C8 (amended): the buffer-wait poll has no cancellation input; for every
execution in which the device keeps reporting a zero buffer length the loop
never returns — after any number of polls, from any starting poll index, it
is still spinning.  It returns only when the status call fails or reports a
non-zero length. -/
theorem C8_wait_never_returns (poll : Nat → GdbsOutcome)
    (h : ∀ i, poll i = .ok 0) :
    ∀ fuel i, data_buffer_wait_go poll i fuel = none := by
  intro fuel
  induction fuel with
  | zero => intro i; rfl
  | succ f ih => intro i; simp [data_buffer_wait_go, h i, ih]

/-- Witness for C8 at the constantly-zero device. -/
theorem C8_witness :
    data_buffer_wait_go (fun _ => GdbsOutcome.ok 0) 0 3 = none :=
  C8_wait_never_returns (fun _ => .ok 0) (fun _ => rfl) 3 0

/-- C6: the SCSI-Generic retry loop (a) returns success after 4 transient
check-conditions followed by a good 5th attempt, having issued exactly 5
ioctls and slept 4 × 3 = 12 seconds between attempts; (b) returns failure
(2) after 5 transient check-conditions, with exactly 5 ioctls and no 6th
attempt (the code also sleeps once more after the final transient attempt,
hence 15 seconds in total); and (c) returns failure (2) immediately after
one ioctl, with no sleep, when the first check-condition is non-transient. -/
theorem C6_retry_budget :
    (∀ (attempt : Nat → SgOutcome) (senses : Nat → List Nat),
      (∀ i, i < 4 → attempt i = .check (senses i)) →
      (∀ i, i < 4 → scsi_transient_error (senses i) = true) →
      attempt 4 = .good →
      scsi_command attempt = ⟨0, 5, 12⟩) ∧
    (∀ (attempt : Nat → SgOutcome) (senses : Nat → List Nat),
      (∀ i, i < 5 → attempt i = .check (senses i)) →
      (∀ i, i < 5 → scsi_transient_error (senses i) = true) →
      scsi_command attempt = ⟨2, 5, 15⟩) ∧
    (∀ (attempt : Nat → SgOutcome) (sense : List Nat),
      attempt 0 = .check sense → scsi_transient_error sense = false →
      scsi_command attempt = ⟨2, 1, 0⟩) := by
  refine ⟨?_, ?_, ?_⟩
  · intro attempt senses hA hT h4
    simp [scsi_command, scsi_command_go,
      hA 0 (by omega), hA 1 (by omega), hA 2 (by omega), hA 3 (by omega),
      hT 0 (by omega), hT 1 (by omega), hT 2 (by omega), hT 3 (by omega), h4]
  · intro attempt senses hA hT
    simp [scsi_command, scsi_command_go,
      hA 0 (by omega), hA 1 (by omega), hA 2 (by omega), hA 3 (by omega),
      hA 4 (by omega),
      hT 0 (by omega), hT 1 (by omega), hT 2 (by omega), hT 3 (by omega),
      hT 4 (by omega)]
  · intro attempt sense h0 hT
    simp [scsi_command, scsi_command_go, h0, hT]

/-- Witness for C6 at concrete outcome streams. -/
theorem C6_witness :
    scsi_command attemptsTransThenGood = ⟨0, 5, 12⟩ ∧
    scsi_command attemptsAllTransient = ⟨2, 5, 15⟩ ∧
    scsi_command attemptsNonTransient = ⟨2, 1, 0⟩ := by
  have ht : scsi_transient_error transientSense = true := by decide
  have hnt : scsi_transient_error nonTransientSense = false := by decide
  refine ⟨C6_retry_budget.1 attemptsTransThenGood (fun _ => transientSense)
      (fun i hi => by simp [attemptsTransThenGood, hi]) (fun _ _ => ht)
      (by decide),
    C6_retry_budget.2.1 attemptsAllTransient (fun _ => transientSense)
      (fun _ _ => rfl) (fun _ _ => ht),
    C6_retry_budget.2.2 attemptsNonTransient nonTransientSense rfl hnt⟩

/-- C5: whenever the USB exchange for a command completes with a non-good
SCSI status word, `send_command` issues exactly one follow-up CDB — the
6-byte REQUEST SENSE `{0x03, 0, 0, 0, 0x12, 0}` — and, when the follow-up's
data phase delivers the `RESPONSE_SIZE = 18` sense bytes, the call surfaces
the SCSI error (return 2) with those freshly fetched bytes at the start of
the caller's 20-byte `requestsense` buffer (its final two bytes are beyond
`RESPONSE_SIZE` and are left as they were). -/
theorem C5_sense_fetch_on_check_condition
    (initSense command : List Nat) (main senseXfer : UsbXfer)
    (s : Nat) (d : List Nat) (hm : main = .ok s d) (hs : s ≠ 0) :
    (send_command initSense command main senseXfer).cdbs =
      [command, REQUEST_SENSE_CDB] ∧
    REQUEST_SENSE_CDB.length = 6 ∧
    (∀ s2 d2, senseXfer = .ok s2 d2 → d2.length = RESPONSE_SIZE →
      (send_command initSense command main senseXfer).ret = 2 ∧
      (send_command initSense command main senseXfer).requestsense =
        d2 ++ initSense.drop RESPONSE_SIZE) := by
  subst hm
  refine ⟨?_, by decide, ?_⟩
  · cases senseXfer <;> simp [send_command, fetchSense, hs]
  · intro s2 d2 he hlen
    subst he
    have ht : d2.take RESPONSE_SIZE = d2 := by
      rw [← hlen]; exact List.take_length d2
    have hd : (List.replicate RESPONSE_SIZE (0 : Nat) ++
        initSense.drop RESPONSE_SIZE).drop RESPONSE_SIZE =
        initSense.drop RESPONSE_SIZE := by
      rw [show RESPONSE_SIZE = (List.replicate RESPONSE_SIZE (0 : Nat)).length by
        simp]
      exact List.drop_left _ _
    constructor <;> simp [send_command, fetchSense, hs, ht, hd]

/-- Witness for C5 at concrete transfer outcomes. -/
theorem C5_witness :
    (send_command initC5 cmdC5 (.ok 2 []) (.ok 0 senseBytesC5)).cdbs =
      [cmdC5, REQUEST_SENSE_CDB] ∧
    REQUEST_SENSE_CDB.length = 6 ∧
    (send_command initC5 cmdC5 (.ok 2 []) (.ok 0 senseBytesC5)).ret = 2 ∧
    (send_command initC5 cmdC5 (.ok 2 []) (.ok 0 senseBytesC5)).requestsense =
      senseBytesC5 ++ initC5.drop RESPONSE_SIZE := by
  have h := C5_sense_fetch_on_check_condition initC5 cmdC5
    (.ok 2 []) (.ok 0 senseBytesC5) 2 [] rfl (by decide)
  have h2 := h.2.2 0 senseBytesC5 rfl (by decide)
  exact ⟨h.1, h.2.1, h2.1, h2.2⟩

/-- C10: on a failed image read whose sense has byte 0 = 0xf0 and the
incorrect-length bit (byte 2, bit 5) set but the end-of-medium bit (byte 2,
bit 6) clear, `kvs3105_read_data` returns success with
`result = requested - residual` and `end_of_page = 0`, while
`kvss905c_read_data` — whose guard demands byte 2 = 0x60 exactly — returns
failure; and whenever `kvss905c_read_data` does take its short-read path
(byte 0 = 0xf0, byte 2 = 0x60) it sets `eof = 1` unconditionally. -/
theorem C10_read_data_transport_divergence
    (rs : List Nat) (blen : Nat)
    (h0 : rs.getD 0 0 = 0xf0)
    (hili : rs.getD 2 0 >>> 5 &&& 1 = 1)
    (heom : rs.getD 2 0 >>> 6 &&& 1 = 0)
    (hres : load32be rs 3 ≤ min kMaxBuffer blen) :
    (kvs3105_read_data blen (.failed rs) =
      some (min kMaxBuffer blen - load32be rs 3, 0) ∧
     kvss905c_read_data blen (.failed rs) = none) ∧
    (∀ (rs2 : List Nat) (blen2 : Nat),
      rs2.getD 0 0 = 0xf0 → rs2.getD 2 0 = 0x60 →
      ∃ res, kvss905c_read_data blen2 (.failed rs2) = some (res, 1)) := by
  have hne : rs.getD 2 0 ≠ 0x60 := by
    intro h
    rw [h] at heom
    exact absurd heom (by decide)
  have hmin : min kMaxBuffer blen ≤ kMaxBuffer := Nat.min_le_left _ _
  have husub : usub32 (min kMaxBuffer blen) (load32be rs 3) =
      min kMaxBuffer blen - load32be rs 3 := by
    unfold usub32 kMaxBuffer at *
    omega
  have e1 : kvs3105_read_data blen (.failed rs) =
      if (rs.getD 0 0 == 0xf0) && (rs.getD 2 0 >>> 5 &&& 1 == 1) then
        some (usub32 (min kMaxBuffer blen) (load32be rs 3),
              rs.getD 2 0 >>> 6 &&& 1)
      else none := rfl
  have e2 : ∀ (rs2 : List Nat) (blen2 : Nat),
      kvss905c_read_data blen2 (.failed rs2) =
      if (rs2.getD 0 0 == 0xf0) && (rs2.getD 2 0 == 0x60) then
        some (usub32 (min kMaxBuffer blen2) (load32be rs2 3), 1)
      else none := fun _ _ => rfl
  refine ⟨⟨?_, ?_⟩, ?_⟩
  · rw [e1, h0, hili, heom]
    simp [husub]
  · have hb : (rs.getD 2 0 == 96) = false := beq_eq_false_iff_ne.mpr hne
    rw [e2, h0, hb]
    simp
  · intro rs2 blen2 g0 g2
    exact ⟨usub32 (min kMaxBuffer blen2) (load32be rs2 3),
      by rw [e2, g0, g2]; simp⟩

/-- Witness for C10 at a concrete ILI-only sense buffer (byte 2 = 0x20,
residual 5) and a concrete end-of-medium buffer for the `eof` conjunct. -/
theorem C10_witness :
    (kvs3105_read_data 0x10000 (.failed senseIliOnly) =
      some (0x10000 - 5, 0) ∧
     kvss905c_read_data 0x10000 (.failed senseIliOnly) = none) ∧
    kvss905c_read_data 0x10000 (.failed ([0xf0, 0, 0x60] ++
      List.replicate 17 0)) = some (kMaxBuffer, 1) := by
  have h := C10_read_data_transport_divergence senseIliOnly 0x10000
    (by decide) (by decide) (by decide) (by decide)
  obtain ⟨res, hres⟩ := h.2 ([0xf0, 0, 0x60] ++ List.replicate 17 0)
    0x10000 (by decide) (by decide)
  have hc : kvss905c_read_data 0x10000 (.failed ([0xf0, 0, 0x60] ++
      List.replicate 17 0)) = some (kMaxBuffer, 1) := by decide
  exact ⟨by simpa using h.1, hc⟩

/-- C unsigned subtraction agrees with `Nat` subtraction when it cannot
wrap. -/
theorem usub32_eq (a b : Nat) (hb : b ≤ a) (ha : a < 2 ^ 32) :
    usub32 a b = a - b := by
  unfold usub32
  omega

/-- The residual encoded into the short-read sense buffer decodes back. -/
theorem load32be_senseShortRead (d : Nat) (hd : d < 2 ^ 32) :
    load32be (senseShortRead d) 3 = d := by
  simp [load32be, senseShortRead, u32be]
  omega

/-- A READ of a full chunk while more data remains succeeds with the full
chunk and no end-of-page, on both transports. -/
theorem read_data_full (R : Nat) (h : kMaxBuffer < R) :
    kvs3105_read_data kMaxBuffer (deviceRead R kMaxBuffer) =
      some (kMaxBuffer, 0) ∧
    kvss905c_read_data kMaxBuffer (deviceRead R kMaxBuffer) =
      some (kMaxBuffer, 0) := by
  rw [deviceRead, if_pos h]
  exact ⟨by simp [kvs3105_read_data], by simp [kvss905c_read_data]⟩

/-- A READ that reaches the end of the page (`0 < R ≤ kMaxBuffer` bytes
left) returns the remaining `R` bytes with end-of-page set, on both
transports. -/
theorem read_data_short (R : Nat) (h1 : 0 < R) (h2 : R ≤ kMaxBuffer) :
    kvs3105_read_data kMaxBuffer (deviceRead R kMaxBuffer) = some (R, 1) ∧
    kvss905c_read_data kMaxBuffer (deviceRead R kMaxBuffer) = some (R, 1) := by
  have hC32 : kMaxBuffer < 2 ^ 32 := by unfold kMaxBuffer; omega
  rw [deviceRead, if_neg (by omega)]
  have hld : load32be (senseShortRead (kMaxBuffer - R)) 3 = kMaxBuffer - R :=
    load32be_senseShortRead _ (by omega)
  have hsub : usub32 (min kMaxBuffer kMaxBuffer) (kMaxBuffer - R) = R := by
    rw [Nat.min_self, usub32_eq _ _ (Nat.sub_le _ _) hC32,
      Nat.sub_sub_self h2]
  constructor
  · have e1 : kvs3105_read_data kMaxBuffer
        (.failed (senseShortRead (kMaxBuffer - R))) =
        if ((senseShortRead (kMaxBuffer - R)).getD 0 0 == 0xf0) &&
           ((senseShortRead (kMaxBuffer - R)).getD 2 0 >>> 5 &&& 1 == 1) then
          some (usub32 (min kMaxBuffer kMaxBuffer)
                  (load32be (senseShortRead (kMaxBuffer - R)) 3),
                (senseShortRead (kMaxBuffer - R)).getD 2 0 >>> 6 &&& 1)
        else none := rfl
    have g0 : (senseShortRead (kMaxBuffer - R)).getD 0 0 = 0xf0 := by
      simp [senseShortRead]
    have g2 : (senseShortRead (kMaxBuffer - R)).getD 2 0 = 0x60 := by
      simp [senseShortRead]
    rw [e1, hld, hsub, g0, g2]
    simp
  · have e2 : kvss905c_read_data kMaxBuffer
        (.failed (senseShortRead (kMaxBuffer - R))) =
        if ((senseShortRead (kMaxBuffer - R)).getD 0 0 == 0xf0) &&
           ((senseShortRead (kMaxBuffer - R)).getD 2 0 == 0x60) then
          some (usub32 (min kMaxBuffer kMaxBuffer)
                  (load32be (senseShortRead (kMaxBuffer - R)) 3), 1)
        else none := rfl
    have g0 : (senseShortRead (kMaxBuffer - R)).getD 0 0 = 0xf0 := by
      simp [senseShortRead]
    have g2 : (senseShortRead (kMaxBuffer - R)).getD 2 0 = 0x60 := by
      simp [senseShortRead]
    rw [e2, hld, hsub, g0, g2]
    simp

/-- Draining a page of `q` full chunks plus a final partial-or-full chunk
of `r` bytes (`0 < r ≤ kMaxBuffer`) produces `q` full reads and one
terminal end-of-page read of `r` bytes, on both transports. -/
theorem drain_replicate (q : Nat) :
    ∀ r fuel, 0 < r → r ≤ kMaxBuffer → q < fuel →
      drain3105 fuel (q * kMaxBuffer + r) =
        some (List.replicate q kMaxBuffer ++ [r]) ∧
      drain905c fuel (q * kMaxBuffer + r) =
        some (List.replicate q kMaxBuffer ++ [r]) := by
  induction q with
  | zero =>
    intro r fuel h1 h2 hf
    obtain ⟨f, rfl⟩ : ∃ f, fuel = f + 1 := ⟨fuel - 1, by omega⟩
    obtain ⟨s3, s9⟩ := read_data_short r h1 h2
    constructor
    · simp [drain3105, s3]
    · simp [drain905c, s9]
  | succ q ih =>
    intro r fuel h1 h2 hf
    obtain ⟨f, rfl⟩ : ∃ f, fuel = f + 1 := ⟨fuel - 1, by omega⟩
    have hCpos : 0 < kMaxBuffer := by unfold kMaxBuffer; omega
    have hgt : kMaxBuffer < (q + 1) * kMaxBuffer + r := by
      rw [Nat.succ_mul]
      omega
    have harg : (q + 1) * kMaxBuffer + r - kMaxBuffer = q * kMaxBuffer + r := by
      rw [Nat.succ_mul]
      omega
    obtain ⟨f3, f9⟩ := read_data_full ((q + 1) * kMaxBuffer + r) hgt
    obtain ⟨d3, d9⟩ := ih r f h1 h2 (by omega)
    constructor
    · simp [drain3105, f3, harg, d3, List.replicate_succ]
    · simp [drain905c, f9, harg, d9, List.replicate_succ]

/-- C1 (amended): draining a page holding `N > 0` bytes with max chunk
`kMaxBuffer = 64` KiB terminates (the loop stops at the first read that
reports end-of-page) and yields exactly `⌈N / kMaxBuffer⌉` reads whose
returned byte counts sum to exactly `N`; every read before the last
returns a full chunk, the last read reports end-of-page, and the last read
is short (returns fewer than `kMaxBuffer` bytes) exactly when `kMaxBuffer`
does not divide `N` — when it divides `N`, the final read transfers a full
chunk and still signals end-of-page via the residual-0 sense.  Both
transports' drains produce the same read sequence. -/
theorem C1_drain_chunked_reads (N : Nat) (hN : 0 < N) :
    ∃ l, drain3105 N N = some l ∧ drain905c N N = some l ∧
      l.length = (N + kMaxBuffer - 1) / kMaxBuffer ∧
      l.sum = N ∧
      (∀ i, i + 1 < l.length → l.getD i 0 = kMaxBuffer) ∧
      (l.getD (l.length - 1) 0 < kMaxBuffer ↔ ¬ kMaxBuffer ∣ N) := by
  have hC : kMaxBuffer = 65536 := rfl
  obtain ⟨q, r, hNqr, hr1, hr2, hqN⟩ :
      ∃ q r, N = q * kMaxBuffer + r ∧ 0 < r ∧ r ≤ kMaxBuffer ∧ q < N := by
    refine ⟨(N - 1) / kMaxBuffer, N - (N - 1) / kMaxBuffer * kMaxBuffer,
      ?_, ?_, ?_, ?_⟩ <;>
      · rw [hC]
        omega
  obtain ⟨d3, d9⟩ := drain_replicate q r N hr1 hr2 hqN
  rw [← hNqr] at d3 d9
  refine ⟨List.replicate q kMaxBuffer ++ [r], d3, d9, ?_, ?_, ?_, ?_⟩
  · simp only [List.length_append, List.length_replicate, List.length_cons,
      List.length_nil]
    rw [hC] at hNqr hr2 ⊢
    omega
  · simp [List.sum_replicate, smul_eq_mul, mul_comm]
    omega
  · intro i hi
    simp only [List.length_append, List.length_replicate, List.length_cons,
      List.length_nil] at hi
    rw [List.getD_append _ _ _ _ (by simp; omega)]
    rw [List.getD_eq_getElem?_getD, List.getElem?_replicate]
    simp [show i < q by omega]
  · have hlen : (List.replicate q kMaxBuffer ++ [r]).length = q + 1 := by simp
    rw [hlen]
    have hget : (List.replicate q kMaxBuffer ++ [r]).getD (q + 1 - 1) 0 = r := by
      rw [show q + 1 - 1 = q from rfl, List.getD_eq_getElem?_getD,
        List.getElem?_append_right (by simp)]
      simp
    rw [hget]
    rw [hC] at hNqr hr2 ⊢
    omega

/-- Witness for C1 at a page of `N = kMaxBuffer + 5` bytes: two reads, the
first full, the second 5 bytes and short. -/
theorem C1_witness :
    drain3105 (kMaxBuffer + 5) (kMaxBuffer + 5) = some [kMaxBuffer, 5] ∧
    drain905c (kMaxBuffer + 5) (kMaxBuffer + 5) = some [kMaxBuffer, 5] ∧
    [kMaxBuffer, 5].sum = kMaxBuffer + 5 := by
  obtain ⟨l, h3, h9, hlen, hsum, hfull, hshort⟩ :=
    C1_drain_chunked_reads (kMaxBuffer + 5) (by decide)
  have hl : l = [kMaxBuffer, 5] :=
    Option.some.inj (h3.symm.trans (by decide))
  exact ⟨hl ▸ h3, hl ▸ h9, by rw [← hl]; exact hsum⟩

/-- C1 counterexample to the original claim: a page of exactly
`N = kMaxBuffer` bytes (one full chunk, `kMaxBuffer ∣ N`) drains in a
single read — the claimed count `⌈N/C⌉ = 1` holds — but that read returns
the full `kMaxBuffer` bytes, so the claimed "only the last read is short"
fails: no read is short, the terminal read merely signals end-of-page. -/
theorem C1_counterexample :
    drain3105 2 kMaxBuffer = some [kMaxBuffer] ∧
    drain905c 2 kMaxBuffer = some [kMaxBuffer] ∧
    ¬ [kMaxBuffer].getD ([kMaxBuffer].length - 1) 0 < kMaxBuffer := by
  refine ⟨?_, ?_, by decide⟩ <;> decide

end KV
